import Mathlib

/-!
Verification of the per-tag container test lifecycle of the linuxserver
docker-ci repository.

The embedding models, from `src/ci/ci.py` and `src/test_build.py`:

* Python dicts with string keys as insertion-ordered association lists
  (`Dict`), with lookup, assignment and in-place modification;
* `CI.get_platform`, `CI.get_image_name`, `CI.get_build_url`,
  `CI._add_test_result`, `CI._endtest` as pure state transformers over an
  explicit `CIState`;
* the collectors `CI.watch_container_logs`, `CI.generate_sbom`,
  `CI.get_build_info`, `CI.take_screenshot`.  Each collector does external
  I/O (container runtime, HTTP, browser); the embedding therefore takes the
  sequence of I/O outcomes (log-poll results, label availability, screenshot
  success) as explicit inputs and computes the collector's control flow,
  return value, test-result records and cleanup actions from them exactly as
  the source does;
* `CI.container_test` as the sequencing of the collectors, producing the
  executed steps, the finalized report insertion and whether an exception
  escaped the worker;
* `CI.run` as its sequence of pool/display actions;
* the `run_test` cross-platform verdict override of `src/test_build.py`.

Wall-clock instants are modelled as rationals; the `%.2f` formatting of
elapsed seconds is `formatRuntime`.
-/

namespace DockerCI

/-- Association list standing for a Python `dict` with string keys, in
insertion order (Python dicts preserve insertion order and have unique
keys). -/
abbrev Dict (α : Type) : Type := List (String × α)

/-- Lookup, `d.get(k)` / `d[k]`: the first binding for the key (bindings are
unique in any dict produced by the model, mirroring Python). -/
def dictGet {α : Type} (d : Dict α) (k : String) : Option α :=
  match d with
  | [] => none
  | (k2, v) :: rest => if k2 = k then some v else dictGet rest k

/-- Assignment, `d[k] = v`: replace the value of an existing key in place,
keeping its position, otherwise append the new binding at the end.  This is
exactly Python dict assignment semantics. -/
def dictSet {α : Type} (d : Dict α) (k : String) (v : α) : Dict α :=
  match d with
  | [] => [(k, v)]
  | (k2, v2) :: rest => if k2 = k then (k2, v) :: rest else (k2, v2) :: dictSet rest k v

/-- Modification of the value stored under an existing key
(`d[k].mutate()` patterns such as `d[tag]["test"][name] = r`).  When the key
is absent this is a no-op; in Python the subscript would raise `KeyError`, a
case the theorems exclude by hypothesis (the CI initializes every tag's
slot in `__init__`). -/
def dictModify {α : Type} (d : Dict α) (k : String) (f : α → α) : Dict α :=
  match d with
  | [] => []
  | (k2, v) :: rest => if k2 = k then (k2, f v) :: rest else (k2, v) :: dictModify rest k f

/-- Substring test on character lists: does `needle` occur contiguously in
`hay`? -/
def listHasInfix (needle hay : List Char) : Bool :=
  match hay with
  | [] => needle.isEmpty
  | c :: rest => needle.isPrefixOf (c :: rest) || listHasInfix needle rest

/-- Python `needle in hay` on strings. -/
def strContains (hay needle : String) : Bool :=
  listHasInfix needle.toList hay.toList

/-- Python `s.startswith(pre)` on strings, via the character lists
(core String.startsWith is compiled code that does not reduce in the
kernel). -/
def strStartsWith (s pre : String) : Bool :=
  pre.toList.isPrefixOf s.toList

/-- Two-digit rendering of a number below 100. -/
def pad2 (n : Nat) : String :=
  if n < 10 then "0" ++ toString n else toString n

/-- Model of the Python format `f"{x:.2f}s"` applied to an elapsed time:
the value rounded to hundredths, printed with two decimals and an `s`
suffix. -/
def formatRuntime (x : ℚ) : String :=
  let c : Int := round (x * 100)
  let sign : String := if c < 0 then "-" else ""
  sign ++ toString (c.natAbs / 100) ++ "." ++ pad2 (c.natAbs % 100) ++ "s"

/-- CI.get_platform (src/ci/ci.py:420-439): match on the first five
characters of the tag; unmatched prefixes default to amd64. -/
def get_platform (tag : String) : String :=
  let platform : String := tag.take 5
  if platform = "amd64" then "amd64"
  else if platform = "arm64" then "arm64"
  else if platform = "arm32" then "arm"
  else if platform = "riscv" then "riscv64"
  else "amd64"

/-- CI.get_image_name (src/ci/ci.py:554-569): rewrite the image name for the
dev/pipepr/base registries.  The source unpacks `image.split("/")` into
exactly two parts; other shapes would raise ValueError and are returned
unchanged here (no claim exercises them). -/
def get_image_name (image : String) : String :=
  match image.splitOn "/" with
  | [_, containerName] =>
    if strContains image "lspipepr" then "linuxserver/lspipepr-" ++ containerName
    else if strContains image "lsiodev" then "linuxserver/lsiodev-" ++ containerName
    else if strContains image "lsiobase" then "linuxserver/docker-baseimage-" ++ containerName
    else image
  | _ => image

/-- CI.get_build_url (src/ci/ci.py:571-589). -/
def get_build_url (image tag : String) : String :=
  match image.splitOn "/" with
  | [_, containerName] =>
    if strContains image "lspipepr" then
      "https://ghcr.io/linuxserver/lspipepr-" ++ containerName ++ ":" ++ tag
    else if strContains image "lsiodev" then
      "https://ghcr.io/linuxserver/lsiodev-" ++ containerName ++ ":" ++ tag
    else if strContains image "lsiobase" then
      "https://ghcr.io/linuxserver/baseimage-" ++ containerName ++ ":" ++ tag
    else "https://ghcr.io/" ++ image ++ ":" ++ tag
  | _ => "https://ghcr.io/" ++ image ++ ":" ++ tag

/-- One recorded TestResult: the dict
`dict(sorted({"status": .., "message": .., "runtime": ..}.items()))`,
whose keys in sorted order are message, runtime, status. -/
abbrev TestRecord : Type := Dict String

/-- Map from test name to its TestRecord: `tag_report_tests[tag]["test"]`. -/
abbrev TestMap : Type := Dict TestRecord

/-- The `tag_report_tests` attribute: tag -> the dict `{"test": {...}}`. -/
abbrev TagTests : Type := Dict (Dict TestMap)

instance : DecidableEq TestRecord :=
  inferInstanceAs (DecidableEq (List (String × String)))

instance : DecidableEq TestMap :=
  inferInstanceAs (DecidableEq (List (String × TestRecord)))

instance : DecidableEq (Dict TestMap) :=
  inferInstanceAs (DecidableEq (List (String × TestMap)))

instance : DecidableEq TagTests :=
  inferInstanceAs (DecidableEq (List (String × Dict TestMap)))

/-- One finalized TagReport as built by CI._endtest
(src/ci/ci.py:383-398): the dict literal has this fixed set of keys, so a
structure is a faithful rendering. -/
structure TagReport where
  logs : String
  sysinfo : String
  browser_logs : String
  warning_dotnet : String
  warning_uwsgi : String
  build_info : Dict String
  test_results : TestMap
  test_success : Bool
  runtime : String
  build_url : String
  platform : String
  has_warnings : Bool
deriving DecidableEq, Repr

/-- The mutable state of a CI object that the per-tag test lifecycle touches:
the configured tag list, `tag_report_tests`, `report_status` and
`report_containers`. -/
structure CIState where
  tags : List String
  tag_report_tests : TagTests
  report_status : String
  report_containers : Dict TagReport
deriving DecidableEq, Repr

/-- CI.__init__ (src/ci/ci.py:269-272): every configured tag gets the slot
`{"test": {}}`, `report_status` starts as PASS, `report_containers` empty. -/
def init_tag_report_tests (tags : List String) : TagTests :=
  tags.map (fun tag => (tag, [("test", ([] : TestMap))]))

/-- Initial CIState for a run over the given tags. -/
def initState (tags : List String) : CIState :=
  { tags := tags
    tag_report_tests := init_tag_report_tests tags
    report_status := "PASS"
    report_containers := [] }

/-- The record written by CI._add_test_result:
`dict(sorted({"status", "message", "runtime"}.items()))`, i.e. keys in the
order message, runtime, status. -/
def mkTestRecord (status message runtime : String) : TestRecord :=
  [("message", message), ("runtime", runtime), ("status", status)]

/-- CI._add_test_result (src/ci/ci.py:796-817).  Returns the ValueError
message when one is raised (state unchanged), otherwise `none` and the state
with the record stored under `tag_report_tests[tag]["test"][test]`.

On the runtime computation: the source sets `runtime = "-"` when
`start_time` is falsy and then unconditionally overwrites it with
`f"{time.time() - start_time:.2f}s"` whenever `start_time` is a float or
int; since the declared type of `start_time` is `float | int`, the numeric
branch always applies, so the stored runtime is always the formatted
difference `now - start_time`. -/
def add_test_result (s : CIState) (tag test status message : String)
    (start_time now : ℚ) : Option String × CIState :=
  if status ∉ (["PASS", "FAIL"] : List String) then
    (some "Status must be either PASS or FAIL", s)
  else if tag ∉ s.tags then
    (some "Tag not in the list of tags", s)
  else
    let runtime : String := formatRuntime (now - start_time)
    (none,
      { s with tag_report_tests :=
          dictModify s.tag_report_tests tag (fun inner =>
            dictModify inner "test" (fun tm =>
              dictSet tm test (mkTestRecord status message runtime))) })

/-- Read this worker's test map: `self.tag_report_tests[tag]["test"]`. -/
def lookupTestMap (s : CIState) (tag : String) : Option TestMap :=
  (dictGet s.tag_report_tests tag).bind (fun inner => dictGet inner "test")

/-- Read one recorded TestResult:
`self.tag_report_tests[tag]["test"][test]`. -/
def lookupTestRecord (s : CIState) (tag test : String) : Option TestRecord :=
  (lookupTestMap s tag).bind (fun tm => dictGet tm test)

/-- Common collector pattern in the source: call `_add_test_result` and, on a
FAIL record, also set `self.report_status = "FAIL"` (every FAIL site in
watch_container_logs, generate_sbom, get_build_info and take_screenshot does
both; every PASS site only records).  Within container_test the status
argument is always the literal PASS or FAIL and the tag is a configured tag,
so the ValueError branches of `_add_test_result` do not fire; the theorems
carry `tag ∈ tags` for this. -/
def recordResult (s : CIState) (tag test status message : String)
    (a b : ℚ) : CIState :=
  let s1 := (add_test_result s tag test status message a b).2
  if status = "FAIL" then { s1 with report_status := "FAIL" } else s1

/-- One iteration of a log-polling loop: either `container.logs()` returned a
blob, or the container runtime raised (docker APIError). -/
inductive LogPoll where
  | logs (blob : String)
  | apiError (err : String)
deriving DecidableEq, Repr

/-- Pure control flow of CI.watch_container_logs (src/ci/ci.py:637-670) over
the sequence of poll outcomes (the list length stands for the
`logs_timeout` window, polled once per second).  Returns whether the init
marker was found together with the status and message of the TestResult the
collector records:

* a blob containing `[services.d] done.` or `[ls.io-init] done.` records a
  PASS and returns True;
* an APIError while polling is terminal: it records a FAIL with the error
  text and returns False immediately;
* an exhausted window (timeout) records a FAIL and returns False. -/
def logPollsOutcome (polls : List LogPoll) : Bool × String × String :=
  match polls with
  | [] => (false, "FAIL", "INIT NOT FINISHED")
  | LogPoll.logs blob :: rest =>
    if strContains blob "[services.d] done." || strContains blob "[ls.io-init] done." then
      (true, "PASS", "-")
    else logPollsOutcome rest
  | LogPoll.apiError e :: _ => (false, "FAIL", "INIT NOT FINISHED: " ++ e)

/-- CI.watch_container_logs with its state effects: one TestResult under
`Container startup` and, on FAIL, `report_status = "FAIL"`. -/
def watch_container_logs (s : CIState) (tag : String) (polls : List LogPoll)
    (a b : ℚ) : Bool × CIState :=
  let out := logPollsOutcome polls
  (out.1, recordResult s tag "Container startup" out.2.1 out.2.2 a b)

/-- One iteration of the syft log-tailing loop in CI.generate_sbom: either
`syft.logs()` returned a blob, or it raised
(APIError/ContainerError/ImageNotFound). -/
inductive SbomPoll where
  | logs (blob : String)
  | raised (err : String)
deriving DecidableEq, Repr

instance : DecidableEq (Except String String) := fun x y =>
  match x, y with
  | Except.ok a, Except.ok b =>
    if h : a = b then Decidable.isTrue (by rw [h])
    else Decidable.isFalse (fun he => by cases he; exact h rfl)
  | Except.error a, Except.error b =>
    if h : a = b then Decidable.isTrue (by rw [h])
    else Decidable.isFalse (fun he => by cases he; exact h rfl)
  | Except.ok _, Except.error _ => Decidable.isFalse (fun he => by cases he)
  | Except.error _, Except.ok _ => Decidable.isFalse (fun he => by cases he)

/-- Observable outcome of one CI.generate_sbom call: its result (`.ok` for a
normal return, `.error` for an exception escaping the function), how many
times `syft.remove(force=True)` was attempted, and the TestResult it
recorded for `Create SBOM` (none when it recorded nothing). -/
structure SbomOutcome where
  result : Except String String
  removes : Nat
  record : Option (String × String)
deriving DecidableEq, Repr

/-- Loop of CI.generate_sbom (src/ci/ci.py:499-523) over the sequence of
`syft.logs()` poll outcomes (the list length stands for the `sbom_timeout`
window, polled every five seconds).  `logblob` is the local variable of the
same name: unassigned at entry, it is (re)assigned by every successful
`syft.logs()` call; `errMsg` is the local `error_message`.

* a blob containing `VERSION` records a PASS, attempts one forced remove of
  the syft container and returns the blob;
* a raising poll is caught, stored in `error_message`, and the loop
  continues;
* when the window is exhausted with `logblob` assigned, the source logs the
  failure, records a FAIL with `str(error_message)`, attempts one forced
  remove and returns `"ERROR"`;
* when the window is exhausted with `logblob` never assigned (every poll
  raised, or a non-positive timeout), the logging line
  `self.logger.error(..., logblob)` references the unassigned local and
  raises UnboundLocalError, so the function aborts before the FAIL record,
  before the remove and before returning — modelled by the `.error` result
  with `removes = 0`. -/
def generate_sbom_loop (polls : List SbomPoll) (logblob : Option String)
    (errMsg : String) : SbomOutcome :=
  match polls with
  | [] =>
    match logblob with
    | none =>
      { result := Except.error "UnboundLocalError: local variable logblob referenced before assignment"
        removes := 0
        record := none }
    | some _ =>
      { result := Except.ok "ERROR", removes := 1, record := some ("FAIL", errMsg) }
  | SbomPoll.logs blob :: rest =>
    if strContains blob "VERSION" then
      { result := Except.ok blob, removes := 1, record := some ("PASS", "-") }
    else generate_sbom_loop rest (some blob) errMsg
  | SbomPoll.raised e :: rest => generate_sbom_loop rest logblob e

/-- CI.generate_sbom (src/ci/ci.py:479-523), pure part: at entry `logblob`
is unassigned and `error_message` holds the default not-found text (quotes
elided). -/
def generate_sbom_pure (polls : List SbomPoll) : SbomOutcome :=
  generate_sbom_loop polls none
    "Did not find the VERSION keyword in the syft container logs"

/-- CI.generate_sbom with its state effects: the recorded `Create SBOM`
TestResult and, on FAIL, `report_status = "FAIL"`.  Removal failures are
caught and logged in the source (`try: syft.remove(...) except Exception`),
so they never affect the result or the state. -/
def generate_sbom (s : CIState) (tag : String) (polls : List SbomPoll)
    (a b : ℚ) : SbomOutcome × CIState :=
  let p := generate_sbom_pure polls
  (p,
    match p.record with
    | some (st, msg) => recordResult s tag "Create SBOM" st msg a b
    | none => s)

/-- The container/image label data CI.get_build_info reads.  `sizeMB` stands
for the already formatted `"%.2f" % (Size/1000000) + "MB"` string. -/
structure BuildLabels where
  version : String
  created : String
  sizeMB : String
  maintainer : String
deriving DecidableEq, Repr

/-- Pure part of CI.get_build_info (src/ci/ci.py:591-635): `labels = some l`
models a successful read of the container attributes, `labels = none` models
an APIError or a missing key (KeyError).  Returns the build_info dict in the
insertion order of the source together with the status and message of the
recorded `Get build info` TestResult.  On failure the source assigns only
the four keys version, created, size and maintainer, each `"ERROR"`. -/
def get_build_info_pure (labels : Option BuildLabels)
    (errMsg builder tag image : String) : Dict String × String × String :=
  match labels with
  | some l =>
    ([("version", l.version), ("created", l.created), ("size", l.sizeMB),
      ("maintainer", l.maintainer), ("builder", builder), ("tag", tag),
      ("image", get_image_name image)], "PASS", "-")
  | none =>
    ([("version", "ERROR"), ("created", "ERROR"), ("size", "ERROR"),
      ("maintainer", "ERROR")], "FAIL", errMsg)

/-- CI.get_build_info with its state effects. -/
def get_build_info (s : CIState) (tag : String) (labels : Option BuildLabels)
    (errMsg builder image : String) (a b : ℚ) : Dict String × CIState :=
  let out := get_build_info_pure labels errMsg builder tag image
  (out.1, recordResult s tag "Get build info" out.2.1 out.2.2 a b)

/-- Outcome environment for one CI.take_screenshot call: whether screenshots
are enabled for the run (`self.screenshot`), whether the probe/navigate/
capture loop succeeds within its window, the failure message otherwise
(`CONNECTION ERROR: ..`/`TIMEOUT: ..`/`UNKNOWN: ..`), and the browser
console logs retrieved from the driver. -/
structure ScreenshotEnv where
  enabled : Bool
  ok : Bool
  failMsg : String
  browserLogs : String
deriving DecidableEq, Repr

/-- Pure part of CI.take_screenshot (src/ci/ci.py:819-892): disabled runs
return `(True, "")` recording nothing; a successful capture records a PASS
and returns the browser logs; every failure handler records a FAIL with its
message and returns `(False, logs)`.  The driver is quit in a `finally`
with its own try/except, so teardown never changes the outcome. -/
def take_screenshot_pure (e : ScreenshotEnv) :
    (Bool × String) × Option (String × String) :=
  if e.enabled = false then ((true, ""), none)
  else if e.ok = true then ((true, e.browserLogs), some ("PASS", "-"))
  else ((false, e.browserLogs), some ("FAIL", e.failMsg))

/-- CI.take_screenshot with its state effects. -/
def take_screenshot (s : CIState) (tag : String) (e : ScreenshotEnv)
    (a b : ℚ) : (Bool × String) × CIState :=
  let out := take_screenshot_pure e
  (out.1,
    match out.2 with
    | some (st, msg) => recordResult s tag "Get screenshot" st msg a b
    | none => s)

/-- Warning text for .NET images on ARM32 (src/ci/ci.py:379). -/
def dotnet_warning : String :=
  "May be a .NET app. Service might not start on ARM32 with QEMU"

/-- Warning text for uWSGI images on ARM (src/ci/ci.py:380). -/
def uwsgi_warning : String :=
  "This image uses uWSGI and might not start on ARM/QEMU"

/-- CI._endtest (src/ci/ci.py:356-398): build the TagReport from the final
container log, the build info, the package dump and this tag's accumulated
test map, and insert it into `report_containers` under the tag.  The forced
container remove is wrapped in try/except APIError (logged only), so it has
no state effect.  The runtime argument is the formatted elapsed time the
source computes from `start_time` (always the numeric branch, as in
`add_test_result`). -/
def endtest (s : CIState) (tag : String) (build_info : Dict String)
    (packages : String) (test_success : Bool)
    (runtime logblob browser_logs image : String) : CIState :=
  let warnDotnet : String :=
    if strContains packages "icu-libs" && strContains tag "arm32" then dotnet_warning else ""
  let warnUwsgi : String :=
    if strContains packages "uwsgi" && strContains tag "arm" then uwsgi_warning else ""
  let report : TagReport :=
    { logs := logblob
      sysinfo := packages
      browser_logs := browser_logs
      warning_dotnet := warnDotnet
      warning_uwsgi := warnUwsgi
      build_info := build_info
      test_results := (lookupTestMap s tag).getD []
      test_success := test_success
      runtime := runtime
      build_url := get_build_url image tag
      platform := (get_platform tag).toUpper
      has_warnings := (warnDotnet != "") || (warnUwsgi != "") }
  { s with report_containers := dictSet s.report_containers tag report }

/-- The externally visible actions of one CI.container_test call, in
program order. -/
inductive Step where
  | runSbom
  | runWatchLogs
  | runBuildInfo
  | runScreenshot
  | finalize (test_success : Bool)
deriving DecidableEq, Repr

/-- The I/O outcomes one container_test call observes. -/
structure WorkerEnv where
  sbomPolls : List SbomPoll
  logPolls : List LogPoll
  labels : Option BuildLabels
  buildErrMsg : String
  shot : ScreenshotEnv
  containerLogs : String
deriving Repr

/-- Result of one CI.container_test call: the final CIState, the executed
steps, and whether an exception escaped the worker. -/
structure CTOut where
  state : CIState
  steps : List Step
  raised : Bool
deriving Repr

/-- CI.container_test (src/ci/ci.py:294-354) for one tag whose container
launch succeeded.

generate_sbom and watch_container_logs are submitted together to a
two-worker executor; the `with` block waits for both, so both complete (and
both record their TestResult) before either future is read — their writes
target the distinct test names `Create SBOM` and `Container startup`, so
the sequential composition below is a faithful linearisation.
`future_sbom.result(...)` is read first (line 326): if generate_sbom raised,
the exception re-raises there and propagates out of container_test (which
has no handler), so neither get_build_info nor _endtest runs.  Otherwise
get_build_info always runs (line 328, before any check), then the checks of
lines 330-343 finalize early with `test_success = False` when the startup
marker was not found, the build info version is the ERROR marker, or the
sbom is the ERROR marker; otherwise take_screenshot runs and its failure
finalizes with `test_success = False` exactly when the platform is amd64
(line 347), else the worker finalizes with `test_success = True`. -/
def container_test (s : CIState) (tag image builder : String)
    (env : WorkerEnv) (a b : ℚ) : CTOut :=
  let sbomP := generate_sbom_pure env.sbomPolls
  let s1 := (generate_sbom s tag env.sbomPolls a b).2
  let watched := watch_container_logs s1 tag env.logPolls a b
  let logsfound := watched.1
  let s2 := watched.2
  match sbomP.result with
  | Except.error _ =>
    { state := s2, steps := [Step.runSbom, Step.runWatchLogs], raised := true }
  | Except.ok sbom =>
    let built := get_build_info s2 tag env.labels env.buildErrMsg builder image a b
    let build_info := built.1
    let s3 := built.2
    let runtime := formatRuntime (b - a)
    if logsfound = false then
      { state := endtest s3 tag build_info sbom false runtime env.containerLogs "" image
        steps := [Step.runSbom, Step.runWatchLogs, Step.runBuildInfo, Step.finalize false]
        raised := false }
    else if dictGet build_info "version" = some "ERROR" then
      { state := endtest s3 tag build_info sbom false runtime env.containerLogs "" image
        steps := [Step.runSbom, Step.runWatchLogs, Step.runBuildInfo, Step.finalize false]
        raised := false }
    else if sbom = "ERROR" then
      { state := endtest s3 tag build_info sbom false runtime env.containerLogs "" image
        steps := [Step.runSbom, Step.runWatchLogs, Step.runBuildInfo, Step.finalize false]
        raised := false }
    else
      let shot := take_screenshot s3 tag env.shot a b
      let success := shot.1.1
      let blogs := shot.1.2
      let s4 := shot.2
      if success = false ∧ get_platform tag = "amd64" then
        { state := endtest s4 tag build_info sbom false runtime env.containerLogs blogs image
          steps := [Step.runSbom, Step.runWatchLogs, Step.runBuildInfo,
                    Step.runScreenshot, Step.finalize false]
          raised := false }
      else
        { state := endtest s4 tag build_info sbom true runtime env.containerLogs blogs image
          steps := [Step.runSbom, Step.runWatchLogs, Step.runBuildInfo,
                    Step.runScreenshot, Step.finalize true]
          raised := false }

/-- The observable actions of CI.run (src/ci/ci.py:277-292). -/
inductive RunEvent where
  | workerRun (tag : String)
  | displayStart
  | poolClose
  | poolJoin
  | displayStop
deriving DecidableEq, Repr

/-- CI.run (src/ci/ci.py:277-292) as its sequence of actions.
`thread_pool.map(self.container_test, tags)` is the blocking
multiprocessing-pool map: it returns only once container_test has completed
on every tag.  Only then does the source construct and start the virtual
display, close and join the (already drained) pool, and stop the display. -/
def run_events (tags : List String) : List RunEvent :=
  tags.map RunEvent.workerRun ++
    [RunEvent.displayStart, RunEvent.poolClose, RunEvent.poolJoin, RunEvent.displayStop]

/-- Modelled from the spec: `Platform.AMD64.value`, the amd64 platform
string.  src/test_build.py imports `Platform` from `ci.ci`, but no Platform
enum is defined in src/ci/ci.py; the spec's platform table and the
repository's tests (`get_platform(tags[0]) == Platform.AMD64.value` for an
amd64-prefixed tag) fix its value to "amd64". -/
def Platform_AMD64_value : String := "amd64"

/-- Modelled from the spec: `CIReportResult.PASS`, the PASS verdict.
src/test_build.py imports `CIReportResult` from `ci.ci`, which does not
define it in src; ci.py represents the report status by the strings
"PASS"/"FAIL". -/
def CIReportResult_PASS : String := "PASS"

/-- The run_test override loop (src/test_build.py:10-13): for every
finalized tag, in insertion order, if the tag string starts with the amd64
platform value and its test_success is True, force the overall
report_status to PASS. -/
def run_test_override (reports : Dict TagReport) (status : String) : String :=
  reports.foldl
    (fun st p =>
      if strStartsWith p.1 Platform_AMD64_value && p.2.test_success then CIReportResult_PASS
      else st)
    status

/-! ## Dictionary lemmas -/

theorem dictGet_dictSet_self {α : Type} (d : Dict α) (k : String) (v : α) :
    dictGet (dictSet d k v) k = some v := by
  induction d with
  | nil => simp [dictSet, dictGet]
  | cons p rest ih =>
    obtain ⟨k2, v2⟩ := p
    by_cases h : k2 = k
    · simp [dictSet, dictGet, h]
    · simp [dictSet, dictGet, h, ih]

theorem dictSet_dictSet {α : Type} (d : Dict α) (k : String) (v1 v2 : α) :
    dictSet (dictSet d k v1) k v2 = dictSet d k v2 := by
  induction d with
  | nil => simp [dictSet]
  | cons p rest ih =>
    obtain ⟨k2, v2'⟩ := p
    by_cases h : k2 = k
    · simp [dictSet, h]
    · simp [dictSet, h, ih]

theorem dictGet_dictModify_self {α : Type} (d : Dict α) (k : String) (f : α → α) :
    dictGet (dictModify d k f) k = (dictGet d k).map f := by
  induction d with
  | nil => simp [dictModify, dictGet]
  | cons p rest ih =>
    obtain ⟨k2, v⟩ := p
    by_cases h : k2 = k
    · simp [dictModify, dictGet, h]
    · simp [dictModify, dictGet, h, ih]

theorem dictGet_dictModify_other {α : Type} (d : Dict α) (k k2 : String)
    (f : α → α) (h : k2 ≠ k) : dictGet (dictModify d k2 f) k = dictGet d k := by
  induction d with
  | nil => simp [dictModify]
  | cons p rest ih =>
    obtain ⟨k3, v⟩ := p
    by_cases h3 : k3 = k2
    · subst h3
      simp [dictModify, dictGet, h]
    · by_cases h4 : k3 = k
      · simp [dictModify, dictGet, h3, h4, Ne.symm h]
      · simp [dictModify, dictGet, h3, h4, ih]

/-! ## State-shape lemmas for `add_test_result` and `recordResult` -/

theorem add_test_result_tags (s : CIState) (tag test status message : String)
    (a b : ℚ) : ((add_test_result s tag test status message a b).2).tags = s.tags := by
  unfold add_test_result
  split
  · rfl
  · split
    · rfl
    · rfl

theorem add_test_result_report_containers (s : CIState)
    (tag test status message : String) (a b : ℚ) :
    ((add_test_result s tag test status message a b).2).report_containers
      = s.report_containers := by
  unfold add_test_result
  split
  · rfl
  · split
    · rfl
    · rfl

theorem recordResult_tags (s : CIState) (tag test status message : String)
    (a b : ℚ) : (recordResult s tag test status message a b).tags = s.tags := by
  unfold recordResult
  split
  · exact add_test_result_tags s tag test status message a b
  · exact add_test_result_tags s tag test status message a b

theorem recordResult_report_containers (s : CIState)
    (tag test status message : String) (a b : ℚ) :
    (recordResult s tag test status message a b).report_containers
      = s.report_containers := by
  unfold recordResult
  split
  · exact add_test_result_report_containers s tag test status message a b
  · exact add_test_result_report_containers s tag test status message a b

/-- A valid `add_test_result` call raises nothing and stores the record
under `tag_report_tests[tag]["test"][test]`. -/
theorem lookupTestMap_add_test_result (s : CIState)
    (tag test status message : String) (a b : ℚ) (tm : TestMap)
    (hst : status ∈ (["PASS", "FAIL"] : List String)) (htag : tag ∈ s.tags)
    (htm : lookupTestMap s tag = some tm) :
    (add_test_result s tag test status message a b).1 = none ∧
      lookupTestMap (add_test_result s tag test status message a b).2 tag
        = some (dictSet tm test (mkTestRecord status message (formatRuntime (b - a)))) := by
  obtain ⟨inner, hinner, htest⟩ := Option.bind_eq_some.mp htm
  have hst2 : ¬ status ∉ (["PASS", "FAIL"] : List String) := fun h => h hst
  have htag2 : ¬ tag ∉ s.tags := fun h => h htag
  unfold add_test_result
  rw [if_neg hst2, if_neg htag2]
  refine ⟨rfl, ?_⟩
  unfold lookupTestMap
  simp only [dictGet_dictModify_self, hinner, Option.map_some', Option.some_bind]
  simp only [dictGet_dictModify_self, htest, Option.map_some']

/-- `recordResult` with a valid status stores the record; the extra
`report_status` write does not touch `tag_report_tests`. -/
theorem lookupTestMap_recordResult (s : CIState)
    (tag test status message : String) (a b : ℚ) (tm : TestMap)
    (hst : status ∈ (["PASS", "FAIL"] : List String)) (htag : tag ∈ s.tags)
    (htm : lookupTestMap s tag = some tm) :
    lookupTestMap (recordResult s tag test status message a b) tag
      = some (dictSet tm test (mkTestRecord status message (formatRuntime (b - a)))) := by
  have h := (lookupTestMap_add_test_result s tag test status message a b tm hst htag htm).2
  unfold recordResult
  split
  · exact h
  · exact h

/-- `recordResult` never removes a tag's test-map slot (any tag, any
arguments, including the ValueError branches that leave the state
unchanged). -/
theorem lookupTestMap_recordResult_isSome (s : CIState)
    (tag tg test status message : String) (a b : ℚ)
    (h : (lookupTestMap s tag).isSome = true) :
    (lookupTestMap (recordResult s tg test status message a b) tag).isSome = true := by
  obtain ⟨tm, htm⟩ := Option.isSome_iff_exists.mp h
  obtain ⟨inner, hinner, htest⟩ := Option.bind_eq_some.mp htm
  have base : ∀ s2 : CIState, s2.tag_report_tests = s.tag_report_tests →
      (lookupTestMap s2 tag).isSome = true := by
    intro s2 hs2
    unfold lookupTestMap
    rw [hs2, hinner]
    simp [htest]
  unfold recordResult
  split
  · show (lookupTestMap { (add_test_result s tg test status message a b).2 with
        report_status := "FAIL" } tag).isSome = true
    unfold add_test_result
    split
    · exact base _ rfl
    · split
      · exact base _ rfl
      · by_cases hWait : tg = tag
        · subst hWait
          unfold lookupTestMap
          simp only [dictGet_dictModify_self, hinner, Option.map_some', Option.some_bind]
          simp [dictGet_dictModify_self, htest]
        · unfold lookupTestMap
          simp only [dictGet_dictModify_other _ _ _ _ hWait, hinner, Option.some_bind]
          simp [htest]
  · show (lookupTestMap (add_test_result s tg test status message a b).2 tag).isSome = true
    unfold add_test_result
    split
    · exact base _ rfl
    · split
      · exact base _ rfl
      · by_cases hWait : tg = tag
        · subst hWait
          unfold lookupTestMap
          simp only [dictGet_dictModify_self, hinner, Option.map_some', Option.some_bind]
          simp [dictGet_dictModify_self, htest]
        · unfold lookupTestMap
          simp only [dictGet_dictModify_other _ _ _ _ hWait, hinner, Option.some_bind]
          simp [htest]

/-! ## Initial-state lemmas -/

theorem dictGet_init_tag_report_tests (tags : List String) (tag : String)
    (h : tag ∈ tags) :
    dictGet (init_tag_report_tests tags) tag = some [("test", ([] : TestMap))] := by
  induction tags with
  | nil => cases h
  | cons t rest ih =>
    by_cases e : t = tag
    · simp [init_tag_report_tests, dictGet, e]
    · rcases List.mem_cons.mp h with h1 | h1
      · exact absurd h1.symm e
      · simpa [init_tag_report_tests, dictGet, e] using ih h1

theorem lookupTestMap_initState (tags : List String) (tag : String)
    (h : tag ∈ tags) : lookupTestMap (initState tags) tag = some [] := by
  unfold lookupTestMap initState
  simp only [dictGet_init_tag_report_tests tags tag h, Option.some_bind]
  simp [dictGet]

/-! ## Lemmas on the run_test override loop -/

theorem run_test_override_cons (p : String × TagReport) (rest : Dict TagReport)
    (status : String) :
    run_test_override (p :: rest) status
      = run_test_override rest
          (if strStartsWith p.1 Platform_AMD64_value && p.2.test_success then CIReportResult_PASS
           else status) := rfl

theorem run_test_override_from_pass (reports : Dict TagReport) :
    run_test_override reports "PASS" = "PASS" := by
  induction reports with
  | nil => rfl
  | cons p rest ih =>
    rw [run_test_override_cons]
    simp only [CIReportResult_PASS, ite_self]
    exact ih

theorem run_test_override_no_match (reports : Dict TagReport) (status : String)
    (h : ∀ p ∈ reports, (strStartsWith p.1 Platform_AMD64_value && p.2.test_success) = false) :
    run_test_override reports status = status := by
  induction reports with
  | nil => rfl
  | cons p rest ih =>
    rw [run_test_override_cons]
    have hp := h p (List.mem_cons_self p rest)
    rw [hp]
    simp only [Bool.false_eq_true, if_false]
    exact ih (fun q hq => h q (List.mem_cons_of_mem p hq))

theorem run_test_override_match (reports : Dict TagReport) (status : String)
    (h : ∃ p ∈ reports, (strStartsWith p.1 Platform_AMD64_value && p.2.test_success) = true) :
    run_test_override reports status = "PASS" := by
  induction reports generalizing status with
  | nil =>
    obtain ⟨p, hp, _⟩ := h
    cases hp
  | cons q rest ih =>
    rw [run_test_override_cons]
    obtain ⟨p, hp, hc⟩ := h
    rcases List.mem_cons.mp hp with h1 | h1
    · subst h1
      rw [hc]
      simp only [if_true]
      exact run_test_override_from_pass rest
    · by_cases hq : (strStartsWith q.1 Platform_AMD64_value && q.2.test_success) = true
      · rw [hq]
        simp only [if_true]
        exact run_test_override_from_pass rest
      · rw [Bool.not_eq_true] at hq
        rw [hq]
        simp only [Bool.false_eq_true, if_false]
        exact ih status ⟨p, h1, hc⟩

/-! ## Collector wrapper lemmas -/

theorem watch_container_logs_fst (s : CIState) (tag : String) (polls : List LogPoll)
    (a b : ℚ) : (watch_container_logs s tag polls a b).1 = (logPollsOutcome polls).1 := rfl

theorem get_build_info_fst (s : CIState) (tag : String) (labels : Option BuildLabels)
    (errMsg builder image : String) (a b : ℚ) :
    (get_build_info s tag labels errMsg builder image a b).1
      = (get_build_info_pure labels errMsg builder tag image).1 := rfl

theorem generate_sbom_snd_tags (s : CIState) (tag : String) (polls : List SbomPoll)
    (a b : ℚ) : ((generate_sbom s tag polls a b).2).tags = s.tags := by
  unfold generate_sbom
  dsimp only
  split
  · exact recordResult_tags _ _ _ _ _ _ _
  · rfl

theorem watch_container_logs_snd_tags (s : CIState) (tag : String)
    (polls : List LogPoll) (a b : ℚ) :
    ((watch_container_logs s tag polls a b).2).tags = s.tags :=
  recordResult_tags s tag "Container startup" (logPollsOutcome polls).2.1
    (logPollsOutcome polls).2.2 a b

theorem get_build_info_snd_tags (s : CIState) (tag : String)
    (labels : Option BuildLabels) (errMsg builder image : String) (a b : ℚ) :
    ((get_build_info s tag labels errMsg builder image a b).2).tags = s.tags :=
  recordResult_tags s tag "Get build info"
    (get_build_info_pure labels errMsg builder tag image).2.1
    (get_build_info_pure labels errMsg builder tag image).2.2 a b

theorem generate_sbom_lookup_isSome (s : CIState) (tag tag2 : String)
    (polls : List SbomPoll) (a b : ℚ)
    (h : (lookupTestMap s tag2).isSome = true) :
    (lookupTestMap (generate_sbom s tag polls a b).2 tag2).isSome = true := by
  unfold generate_sbom
  dsimp only
  split
  · exact lookupTestMap_recordResult_isSome _ _ _ _ _ _ _ _ h
  · exact h

theorem watch_container_logs_lookup_isSome (s : CIState) (tag tag2 : String)
    (polls : List LogPoll) (a b : ℚ)
    (h : (lookupTestMap s tag2).isSome = true) :
    (lookupTestMap (watch_container_logs s tag polls a b).2 tag2).isSome = true :=
  lookupTestMap_recordResult_isSome s tag2 tag "Container startup"
    (logPollsOutcome polls).2.1 (logPollsOutcome polls).2.2 a b h

theorem get_build_info_lookup_isSome (s : CIState) (tag tag2 : String)
    (labels : Option BuildLabels) (errMsg builder image : String) (a b : ℚ)
    (h : (lookupTestMap s tag2).isSome = true) :
    (lookupTestMap (get_build_info s tag labels errMsg builder image a b).2 tag2).isSome
      = true :=
  lookupTestMap_recordResult_isSome s tag2 tag "Get build info"
    (get_build_info_pure labels errMsg builder tag image).2.1
    (get_build_info_pure labels errMsg builder tag image).2.2 a b h

theorem take_screenshot_fail_eval (s : CIState) (tag msg bl : String) (a b : ℚ) :
    take_screenshot s tag
      { enabled := true, ok := false, failMsg := msg, browserLogs := bl } a b
      = ((false, bl), recordResult s tag "Get screenshot" "FAIL" msg a b) := rfl

theorem lookupTestMap_endtest (s : CIState) (tag : String) (build_info : Dict String)
    (packages : String) (test_success : Bool) (runtime logblob browser_logs image : String)
    (tag2 : String) :
    lookupTestMap (endtest s tag build_info packages test_success runtime logblob
      browser_logs image) tag2 = lookupTestMap s tag2 := rfl

/-! ## Claims -/

/-- C8: platform derivation from a tag is a pure total function with
`get_platform "amd64-foo" = "amd64"`, `get_platform "arm64v8-foo" = "arm64"`,
`get_platform "arm32v7-foo" = "arm"`, `get_platform "riscv64-foo" = "riscv64"`,
and every tag whose five-character prefix matches none of the four platform
prefixes derives the default `"amd64"`. -/
theorem spec_C8_platform_derivation :
    get_platform "amd64-foo" = "amd64"
    ∧ get_platform "arm64v8-foo" = "arm64"
    ∧ get_platform "arm32v7-foo" = "arm"
    ∧ get_platform "riscv64-foo" = "riscv64"
    ∧ ∀ tag : String,
        tag.take 5 ∉ (["amd64", "arm64", "arm32", "riscv"] : List String) →
        get_platform tag = "amd64" := by
  refine ⟨rfl, rfl, rfl, rfl, ?_⟩
  intro tag h
  simp only [List.mem_cons, List.not_mem_nil, or_false, not_or] at h
  obtain ⟨h1, h2, h3, h4⟩ := h
  simp [get_platform, h1, h2, h3, h4]

/-- Witness for C8: an unmatched prefix derives the default platform. -/
theorem spec_C8_platform_derivation_witness :
    get_platform "unknown-foo" = "amd64" :=
  spec_C8_platform_derivation.2.2.2.2 "unknown-foo" (by decide)

/-- C4 (code bug): in CI.run the blocking `thread_pool.map` dispatches and
completes every per-tag worker before `display.start()` is ever executed, so
the virtual display is acquired after the workers ran, not before dispatch:
in the action sequence of a run over one tag, the worker event strictly
precedes the display-start event. -/
theorem spec_C4_display_started_after_workers :
    run_events ["amd64-1.0"]
      = [RunEvent.workerRun "amd64-1.0", RunEvent.displayStart, RunEvent.poolClose,
         RunEvent.poolJoin, RunEvent.displayStop]
    ∧ (run_events ["amd64-1.0"]).indexOf (RunEvent.workerRun "amd64-1.0")
        < (run_events ["amd64-1.0"]).indexOf RunEvent.displayStart := by
  exact ⟨rfl, by decide⟩

/-- C5 (code bug): when every `syft.logs()` poll raises while tailing, the
generate_sbom loop exhausts its window with the local `logblob` never
assigned; the post-loop logging line then raises UnboundLocalError, so the
scanner container is never removed (`removes = 0`) and no result is
returned (`.error`), while the success and timeout-with-logs paths each
remove the scanner exactly once and return. -/
theorem spec_C5_sbom_cleanup_skipped_on_tailing_errors :
    (generate_sbom_pure [SbomPoll.raised "APIError"]).removes = 0
    ∧ (generate_sbom_pure [SbomPoll.raised "APIError"]).result
        = Except.error "UnboundLocalError: local variable logblob referenced before assignment"
    ∧ (generate_sbom_pure [SbomPoll.raised "APIError"]).record = none
    ∧ (generate_sbom_pure [SbomPoll.logs "NAME VERSION list"]).removes = 1
    ∧ (generate_sbom_pure [SbomPoll.logs "NAME VERSION list"]).result
        = Except.ok "NAME VERSION list"
    ∧ (generate_sbom_pure [SbomPoll.logs "no marker here"]).removes = 1
    ∧ (generate_sbom_pure [SbomPoll.logs "no marker here"]).result = Except.ok "ERROR" :=
  ⟨rfl, rfl, rfl, rfl, rfl, rfl, rfl⟩

/-- C6 counterexample: on a retrieval failure get_build_info returns a
record with only the four keys version, created, size and maintainer set to
ERROR; the keys builder, tag and image are absent, not set to the "ERROR"
marker as the claim states. -/
theorem spec_C6_counterexample :
    (get_build_info_pure none "KeyError: maintainer" "node1" "amd64-1.0" "linuxserver/test").1
      = [("version", "ERROR"), ("created", "ERROR"), ("size", "ERROR"), ("maintainer", "ERROR")]
    ∧ dictGet (get_build_info_pure none "KeyError: maintainer" "node1" "amd64-1.0"
        "linuxserver/test").1 "builder" = none
    ∧ dictGet (get_build_info_pure none "KeyError: maintainer" "node1" "amd64-1.0"
        "linuxserver/test").1 "tag" = none
    ∧ dictGet (get_build_info_pure none "KeyError: maintainer" "node1" "amd64-1.0"
        "linuxserver/test").1 "image" = none :=
  ⟨rfl, rfl, rfl, rfl⟩

/-- C6 (amended): on a retrieval failure get_build_info returns the
BuildInfo record whose keys are exactly version, created, size and
maintainer, each set to the literal "ERROR" (builder, tag and image are not
set), and records a FAIL TestResult for the tag; on success it returns the
fully populated seven-field record and records a PASS TestResult. -/
theorem spec_C6_build_info_failure_record (s : CIState) (tag : String)
    (tm : TestMap) (l : BuildLabels) (errMsg builder image : String) (a b : ℚ)
    (htag : tag ∈ s.tags) (htm : lookupTestMap s tag = some tm) :
    ((get_build_info s tag none errMsg builder image a b).1
        = [("version", "ERROR"), ("created", "ERROR"), ("size", "ERROR"), ("maintainer", "ERROR")]
      ∧ lookupTestRecord (get_build_info s tag none errMsg builder image a b).2
          tag "Get build info"
          = some (mkTestRecord "FAIL" errMsg (formatRuntime (b - a))))
    ∧ ((get_build_info s tag (some l) errMsg builder image a b).1
        = [("version", l.version), ("created", l.created), ("size", l.sizeMB),
           ("maintainer", l.maintainer), ("builder", builder), ("tag", tag),
           ("image", get_image_name image)]
      ∧ lookupTestRecord (get_build_info s tag (some l) errMsg builder image a b).2
          tag "Get build info"
          = some (mkTestRecord "PASS" "-" (formatRuntime (b - a)))) := by
  constructor
  · refine ⟨rfl, ?_⟩
    show (lookupTestMap (recordResult s tag "Get build info" "FAIL" errMsg a b) tag).bind
        (fun tm2 => dictGet tm2 "Get build info") = _
    rw [lookupTestMap_recordResult s tag "Get build info" "FAIL" errMsg a b tm (by simp)
      htag htm]
    simp [dictGet_dictSet_self]
  · refine ⟨rfl, ?_⟩
    show (lookupTestMap (recordResult s tag "Get build info" "PASS" "-" a b) tag).bind
        (fun tm2 => dictGet tm2 "Get build info") = _
    rw [lookupTestMap_recordResult s tag "Get build info" "PASS" "-" a b tm (by simp)
      htag htm]
    simp [dictGet_dictSet_self]

/-- Witness for C6: the amended statement evaluated at a concrete failing
retrieval from the initial state. -/
theorem spec_C6_build_info_failure_record_witness :
    (get_build_info (initState ["amd64-1.0"]) "amd64-1.0" none "KeyError: maintainer"
        "node1" "linuxserver/test" 0 0).1
      = [("version", "ERROR"), ("created", "ERROR"), ("size", "ERROR"), ("maintainer", "ERROR")] :=
  ((spec_C6_build_info_failure_record (initState ["amd64-1.0"]) "amd64-1.0" []
    { version := "1.0", created := "2024", sizeMB := "1.00MB", maintainer := "m" }
    "KeyError: maintainer" "node1" "linuxserver/test" 0 0 (by decide) rfl).1).1

/-- A minimal TagReport value used by the C2 theorems. -/
def sampleReport (b : Bool) : TagReport :=
  { logs := "", sysinfo := "", browser_logs := "", warning_dotnet := "",
    warning_uwsgi := "", build_info := [], test_results := [], test_success := b,
    runtime := "-", build_url := "", platform := "AMD64", has_warnings := false }

/-- C2 counterexample: the tag "zzz-foo" has derived platform amd64 (the
default branch of get_platform) and a successful report, yet the run_test
override leaves an overall FAIL in place, because the code keys on the tag
string starting with "amd64", not on the derived platform. -/
theorem spec_C2_counterexample :
    get_platform "zzz-foo" = "amd64"
    ∧ (sampleReport true).test_success = true
    ∧ run_test_override [("zzz-foo", sampleReport true)] "FAIL" = "FAIL" :=
  ⟨rfl, rfl, rfl⟩

/-- C2 (amended): the cross-platform override of run_test only ever
upgrades the overall status to PASS and never downgrades it, keyed on the
tag string rather than the derived platform: if at least one finalized tag
whose name starts with "amd64" has test_success true, the overall status
resolves to PASS; if no such tag exists the override leaves the status
unchanged (so a prior FAIL stays FAIL); and a PASS status is never
downgraded. -/
theorem spec_C2_override_upgrade_only (reports : Dict TagReport) (status : String) :
    ((∃ p ∈ reports, (strStartsWith p.1 Platform_AMD64_value && p.2.test_success) = true) →
      run_test_override reports status = "PASS")
    ∧ ((∀ p ∈ reports, (strStartsWith p.1 Platform_AMD64_value && p.2.test_success) = false) →
      run_test_override reports status = status)
    ∧ (status = "PASS" → run_test_override reports status = "PASS") := by
  refine ⟨fun h => run_test_override_match reports status h,
    fun h => run_test_override_no_match reports status h, fun h => ?_⟩
  subst h
  exact run_test_override_from_pass reports

/-- Witness for C2: amd64 PASS with arm64 FAIL upgrades the overall FAIL to
PASS. -/
theorem spec_C2_override_upgrade_only_witness :
    run_test_override [("amd64-a", sampleReport true), ("arm64v8-b", sampleReport false)]
      "FAIL" = "PASS" :=
  (spec_C2_override_upgrade_only
      [("amd64-a", sampleReport true), ("arm64v8-b", sampleReport false)] "FAIL").1
    ⟨("amd64-a", sampleReport true), by simp, by decide⟩

/-- C9: a TestResult written through _add_test_result and read back under
the same (tag, test) key preserves status, message and runtime exactly, and
a second write under the same key replaces the first record entirely — the
resulting test map equals the one produced by the second write alone (last
write wins, no merge or append). -/
theorem spec_C9_testresult_roundtrip_replace (s : CIState)
    (tag test st1 m1 st2 m2 : String) (t1 n1 t2 n2 : ℚ) (tm : TestMap)
    (htag : tag ∈ s.tags)
    (h1 : st1 ∈ (["PASS", "FAIL"] : List String))
    (h2 : st2 ∈ (["PASS", "FAIL"] : List String))
    (htm : lookupTestMap s tag = some tm) :
    lookupTestRecord (add_test_result s tag test st1 m1 t1 n1).2 tag test
      = some (mkTestRecord st1 m1 (formatRuntime (n1 - t1)))
    ∧ lookupTestRecord
        (add_test_result (add_test_result s tag test st1 m1 t1 n1).2 tag test st2 m2 t2 n2).2
        tag test
      = some (mkTestRecord st2 m2 (formatRuntime (n2 - t2)))
    ∧ lookupTestMap
        (add_test_result (add_test_result s tag test st1 m1 t1 n1).2 tag test st2 m2 t2 n2).2
        tag
      = some (dictSet tm test (mkTestRecord st2 m2 (formatRuntime (n2 - t2)))) := by
  have w1 := (lookupTestMap_add_test_result s tag test st1 m1 t1 n1 tm h1 htag htm).2
  have htag1 : tag ∈ (add_test_result s tag test st1 m1 t1 n1).2.tags := by
    rw [add_test_result_tags]
    exact htag
  have w2 := (lookupTestMap_add_test_result (add_test_result s tag test st1 m1 t1 n1).2
    tag test st2 m2 t2 n2 _ h2 htag1 w1).2
  refine ⟨?_, ?_, ?_⟩
  · unfold lookupTestRecord
    rw [w1]
    simp [dictGet_dictSet_self]
  · unfold lookupTestRecord
    rw [w2]
    simp [dictGet_dictSet_self]
  · rw [w2, dictSet_dictSet]

/-- Witness for C9: write PASS then FAIL under the same key from the
initial state; the read-back is exactly the second record. -/
theorem spec_C9_testresult_roundtrip_replace_witness :
    lookupTestRecord
      (add_test_result
        (add_test_result (initState ["amd64-x"]) "amd64-x" "Container startup" "PASS" "-" 0 0).2
        "amd64-x" "Container startup" "FAIL" "INIT NOT FINISHED" 0 0).2
      "amd64-x" "Container startup"
      = some (mkTestRecord "FAIL" "INIT NOT FINISHED" (formatRuntime (0 - 0))) :=
  (spec_C9_testresult_roundtrip_replace (initState ["amd64-x"]) "amd64-x"
    "Container startup" "PASS" "-" "FAIL" "INIT NOT FINISHED" 0 0 0 0 []
    (by decide) (by decide) (by decide) rfl).2.1

/-- C10: _add_test_result validates before mutating — for every state, a
status outside PASS/FAIL, or a tag outside the configured tag list, raises
ValueError with the state unchanged (atomicity on error); a valid call
raises nothing and, whenever the tag's test-map slot exists (as `__init__`
guarantees for every configured tag), writes a record whose keys are
exactly message, runtime and status. -/
theorem spec_C10_add_test_result_validation (s : CIState)
    (tag test status message : String) (a b : ℚ) :
    (status ∉ (["PASS", "FAIL"] : List String) →
      add_test_result s tag test status message a b
        = (some "Status must be either PASS or FAIL", s))
    ∧ (status ∈ (["PASS", "FAIL"] : List String) → tag ∉ s.tags →
      add_test_result s tag test status message a b
        = (some "Tag not in the list of tags", s))
    ∧ (status ∈ (["PASS", "FAIL"] : List String) → tag ∈ s.tags →
      (add_test_result s tag test status message a b).1 = none
      ∧ ∀ tm : TestMap, lookupTestMap s tag = some tm →
          lookupTestMap (add_test_result s tag test status message a b).2 tag
            = some (dictSet tm test (mkTestRecord status message (formatRuntime (b - a))))
          ∧ (mkTestRecord status message (formatRuntime (b - a))).map Prod.fst
              = ["message", "runtime", "status"]) := by
  refine ⟨?_, ?_, ?_⟩
  · intro h
    unfold add_test_result
    rw [if_pos h]
  · intro h1 h2
    unfold add_test_result
    rw [if_neg (fun hh => hh h1), if_pos h2]
  · intro h1 h2
    refine ⟨?_, ?_⟩
    · unfold add_test_result
      rw [if_neg (fun hh => hh h1), if_neg (fun hh => hh h2)]
    · intro tm htm
      exact ⟨(lookupTestMap_add_test_result s tag test status message a b tm h1 h2 htm).2,
        rfl⟩

/-- Witness for C10: an invalid status, and a tag outside the configured
list (whose slot therefore does not exist), each raise the ValueError and
leave the initial state untouched. -/
theorem spec_C10_add_test_result_validation_witness :
    add_test_result (initState ["amd64-x"]) "amd64-x" "Get screenshot" "WARN" "msg" 0 0
      = (some "Status must be either PASS or FAIL", initState ["amd64-x"])
    ∧ add_test_result (initState ["amd64-x"]) "riscv64-y" "Get screenshot" "FAIL" "msg" 0 0
      = (some "Tag not in the list of tags", initState ["amd64-x"]) :=
  ⟨(spec_C10_add_test_result_validation (initState ["amd64-x"]) "amd64-x"
      "Get screenshot" "WARN" "msg" 0 0).1 (by decide),
   (spec_C10_add_test_result_validation (initState ["amd64-x"]) "riscv64-y"
      "Get screenshot" "FAIL" "msg" 0 0).2.1 (by decide) (by decide)⟩

/-- Worker environment for the C1 theorems: the startup watcher times out
(no poll sees the init marker), while the sbom scan and the label read
succeed and screenshots are disabled. -/
def c1Env : WorkerEnv :=
  { sbomPolls := [SbomPoll.logs "syft NAME VERSION list"]
    logPolls := []
    labels := some { version := "1.0.0", created := "2024-01-01", sizeMB := "100.00MB",
                     maintainer := "team" }
    buildErrMsg := ""
    shot := { enabled := false, ok := true, failMsg := "", browserLogs := "" }
    containerLogs := "partial log" }

/-- C1 counterexample: with the startup watcher reporting not-found, the
worker still executes both the SBOM collector (concurrently with the
watcher; it completes and performs its cleanup) and the build-info collector
(unconditionally, before the logsfound check of line 330), contradicting
the claim that no later collector runs for that tag. -/
theorem spec_C1_counterexample :
    (logPollsOutcome c1Env.logPolls).1 = false
    ∧ Step.runSbom
        ∈ (container_test (initState ["amd64-1.0"]) "amd64-1.0" "linuxserver/test"
            "node" c1Env 0 0).steps
    ∧ Step.runBuildInfo
        ∈ (container_test (initState ["amd64-1.0"]) "amd64-1.0" "linuxserver/test"
            "node" c1Env 0 0).steps
    ∧ (generate_sbom_pure c1Env.sbomPolls).removes = 1 :=
  ⟨rfl, by decide, by decide, rfl⟩

/-- C1 (amended): when the startup watcher does not find the init-done
marker within its window and the inventory collector returns (rather than
raising, see the generate_sbom cleanup bug), the screenshot collector never
runs and the worker finalizes the tag with test_success false — but the
SBOM collector (run concurrently with the watcher) and the build-info
collector (run before the check) do still execute. -/
theorem spec_C1_startup_failure_finalizes_false (tags : List String)
    (tag image builder : String) (env : WorkerEnv) (a b : ℚ) (v : String)
    (htag : tag ∈ tags)
    (hsbom : (generate_sbom_pure env.sbomPolls).result = Except.ok v)
    (hlogs : (logPollsOutcome env.logPolls).1 = false) :
    (container_test (initState tags) tag image builder env a b).steps
        = [Step.runSbom, Step.runWatchLogs, Step.runBuildInfo, Step.finalize false]
    ∧ Step.runScreenshot ∉ (container_test (initState tags) tag image builder env a b).steps
    ∧ ∃ r, dictGet (container_test (initState tags) tag image builder env a b).state.report_containers
          tag = some r ∧ r.test_success = false := by
  unfold container_test
  dsimp only
  rw [hsbom]
  dsimp only
  rw [watch_container_logs_fst, hlogs]
  rw [if_pos rfl]
  refine ⟨rfl, ?_, ?_⟩
  · show Step.runScreenshot
        ∉ [Step.runSbom, Step.runWatchLogs, Step.runBuildInfo, Step.finalize false]
    decide
  · unfold endtest
    dsimp only
    exact ⟨_, dictGet_dictSet_self _ _ _, rfl⟩

/-- Witness for C1 (amended): evaluated at the concrete environment in
which only the startup watcher fails. -/
theorem spec_C1_startup_failure_finalizes_false_witness :
    (container_test (initState ["amd64-1.0"]) "amd64-1.0" "linuxserver/test" "node"
        c1Env 0 0).steps
      = [Step.runSbom, Step.runWatchLogs, Step.runBuildInfo, Step.finalize false] :=
  (spec_C1_startup_failure_finalizes_false ["amd64-1.0"] "amd64-1.0" "linuxserver/test"
    "node" c1Env 0 0 "syft NAME VERSION list" (by decide) rfl rfl).1

/-- Worker environment for the C7 theorem: the container launched and its
logs show the init marker, but every `syft.logs()` poll of the inventory
scanner raises, so generate_sbom hits the UnboundLocalError path. -/
def c7Env : WorkerEnv :=
  { sbomPolls := [SbomPoll.raised "APIError"]
    logPolls := [LogPoll.logs "[services.d] done."]
    labels := some { version := "1.0.0", created := "2024-01-01", sizeMB := "100.00MB",
                     maintainer := "team" }
    buildErrMsg := ""
    shot := { enabled := false, ok := true, failMsg := "", browserLogs := "" }
    containerLogs := "boot log" }

/-- C7 (code bug): a worker whose container launch succeeded can fail to
reach _endtest — when generate_sbom raises (the UnboundLocalError of its
all-polls-raised path), `future_sbom.result` re-raises inside
container_test, which has no handler, so the worker aborts with no
finalize step and no TagReport is inserted for the tag. -/
theorem spec_C7_worker_can_skip_finalize :
    (container_test (initState ["amd64-1.0"]) "amd64-1.0" "linuxserver/test" "node"
        c7Env 0 0).raised = true
    ∧ (container_test (initState ["amd64-1.0"]) "amd64-1.0" "linuxserver/test" "node"
        c7Env 0 0).state.report_containers = []
    ∧ (container_test (initState ["amd64-1.0"]) "amd64-1.0" "linuxserver/test" "node"
        c7Env 0 0).steps = [Step.runSbom, Step.runWatchLogs]
    ∧ Step.finalize false
        ∉ (container_test (initState ["amd64-1.0"]) "amd64-1.0" "linuxserver/test" "node"
            c7Env 0 0).steps
    ∧ Step.finalize true
        ∉ (container_test (initState ["amd64-1.0"]) "amd64-1.0" "linuxserver/test" "node"
            c7Env 0 0).steps :=
  ⟨rfl, rfl, rfl, by decide, by decide⟩

/-- C3: on a tag where startup, metadata and inventory collection all
succeeded and screenshots are enabled, a screenshot failure sets the
finalized test_success to false exactly when the tag's platform is amd64
(on any other platform the tag still finalizes with test_success true),
and in both cases the FAIL TestResult for the screenshot test is recorded
in the tag's test map. -/
theorem spec_C3_screenshot_failure_platform_policy (tags : List String)
    (tag image builder : String) (env : WorkerEnv) (a b : ℚ) (v : String)
    (l : BuildLabels) (msg bl : String)
    (htag : tag ∈ tags)
    (hsbom : (generate_sbom_pure env.sbomPolls).result = Except.ok v)
    (hv : v ≠ "ERROR")
    (hlab : env.labels = some l)
    (hver : l.version ≠ "ERROR")
    (hlogs : (logPollsOutcome env.logPolls).1 = true)
    (hshot : env.shot = { enabled := true, ok := false, failMsg := msg, browserLogs := bl }) :
    (∃ r, dictGet (container_test (initState tags) tag image builder env a b).state.report_containers
          tag = some r
        ∧ r.test_success = (if get_platform tag = "amd64" then false else true))
    ∧ (∃ rec, lookupTestRecord (container_test (initState tags) tag image builder env a b).state
          tag "Get screenshot" = some rec
        ∧ dictGet rec "status" = some "FAIL") := by
  unfold container_test
  dsimp only
  rw [hsbom]
  dsimp only
  rw [watch_container_logs_fst, hlogs]
  rw [if_neg (by decide : ¬ (true = false))]
  rw [get_build_info_fst, hlab]
  have hbv : dictGet (get_build_info_pure (some l) env.buildErrMsg builder tag image).1
      "version" = some l.version := by
    simp [get_build_info_pure, dictGet]
  rw [hbv]
  rw [if_neg (show ¬ (some l.version = some "ERROR") by simpa using hver)]
  rw [if_neg hv]
  rw [hshot, take_screenshot_fail_eval]
  dsimp only
  have h0 : (lookupTestMap (initState tags) tag).isSome = true := by
    rw [lookupTestMap_initState tags tag htag]
    rfl
  have h1 := generate_sbom_lookup_isSome (initState tags) tag tag env.sbomPolls a b h0
  have h2 := watch_container_logs_lookup_isSome
    (generate_sbom (initState tags) tag env.sbomPolls a b).2 tag tag env.logPolls a b h1
  have h3 := get_build_info_lookup_isSome
    (watch_container_logs (generate_sbom (initState tags) tag env.sbomPolls a b).2 tag
      env.logPolls a b).2 tag tag (some l) env.buildErrMsg builder image a b h2
  obtain ⟨tm3, htm3⟩ := Option.isSome_iff_exists.mp h3
  have htags3 : tag ∈ ((get_build_info
      (watch_container_logs (generate_sbom (initState tags) tag env.sbomPolls a b).2 tag
        env.logPolls a b).2 tag (some l) env.buildErrMsg builder image a b).2).tags := by
    rw [get_build_info_snd_tags, watch_container_logs_snd_tags, generate_sbom_snd_tags]
    exact htag
  have hw := lookupTestMap_recordResult
    (get_build_info
      (watch_container_logs (generate_sbom (initState tags) tag env.sbomPolls a b).2 tag
        env.logPolls a b).2 tag (some l) env.buildErrMsg builder image a b).2
    tag "Get screenshot" "FAIL" msg a b tm3 (by simp) htags3 htm3
  by_cases hp : get_platform tag = "amd64"
  · rw [if_pos ⟨rfl, hp⟩]
    constructor
    · unfold endtest
      dsimp only
      rw [if_pos hp]
      exact ⟨_, dictGet_dictSet_self _ _ _, rfl⟩
    · unfold lookupTestRecord
      rw [lookupTestMap_endtest, hw]
      simp only [Option.some_bind]
      exact ⟨_, dictGet_dictSet_self _ _ _, rfl⟩
  · rw [if_neg (fun hand => hp hand.2)]
    constructor
    · unfold endtest
      dsimp only
      rw [if_neg hp]
      exact ⟨_, dictGet_dictSet_self _ _ _, rfl⟩
    · unfold lookupTestRecord
      rw [lookupTestMap_endtest, hw]
      simp only [Option.some_bind]
      exact ⟨_, dictGet_dictSet_self _ _ _, rfl⟩

/-- Worker environment for the C3 witness: startup, metadata and inventory
succeed, screenshots are enabled and the screenshot fails. -/
def c3Env : WorkerEnv :=
  { sbomPolls := [SbomPoll.logs "NAME VERSION"]
    logPolls := [LogPoll.logs "[ls.io-init] done."]
    labels := some { version := "1.0", created := "2024", sizeMB := "1.00MB",
                     maintainer := "m" }
    buildErrMsg := ""
    shot := { enabled := true, ok := false, failMsg := "TIMEOUT: Timeout taking screenshot",
              browserLogs := "" }
    containerLogs := "done log" }

/-- Witness for C3: a failing screenshot on an arm64 tag still finalizes
with test_success true. -/
theorem spec_C3_screenshot_failure_platform_policy_witness :
    ∃ r, dictGet (container_test (initState ["arm64v8-1.0"]) "arm64v8-1.0"
        "linuxserver/test" "node" c3Env 0 0).state.report_containers "arm64v8-1.0" = some r
      ∧ r.test_success = (if get_platform "arm64v8-1.0" = "amd64" then false else true) :=
  (spec_C3_screenshot_failure_platform_policy ["arm64v8-1.0"] "arm64v8-1.0"
    "linuxserver/test" "node" c3Env 0 0 "NAME VERSION"
    { version := "1.0", created := "2024", sizeMB := "1.00MB", maintainer := "m" }
    "TIMEOUT: Timeout taking screenshot" ""
    (by decide) rfl (by decide) rfl (by decide) rfl rfl).1

end DockerCI
